import Mathlib

/-!
Verification development for the `trackernew` repository (`src/server.py`).

The server is a Flask application backed by MongoDB.  We shallowly embed the
parts of `server.py` the specification talks about:

* `validate_phone` and `validate_lat_lon` (pure validators),
* the record store (a MongoDB collection with a unique index on `phone`,
  accessed only through `update_one` with `upsert=True` and `find_one`),
* the two HTTP handlers `update_location` (POST `/api/location`) and
  `get_latest_location` (GET `/api/location/<phone>`).

Modelling conventions:

* Python values that can appear in a parsed JSON body are modelled by `Val`.
  JSON numbers are modelled as exact rationals (`vNum`).  Aggregates
  (lists/objects), which are neither strings nor `float()`-convertible, are
  collapsed into the single constructor `vOther`.
* Python floats are modelled by `PyFloat`: a finite value (an exact rational)
  or one of the special values `nan`, `inf`, `ninf`.  The code performs no
  float arithmetic, only conversion and comparison against `±90.0` and
  `±180.0`, which are exactly representable, so exact rationals are a
  faithful model of every comparison the code makes.
* Python `str.strip()` strips whitespace characters; we model the ASCII
  whitespace characters, which suffice for every statement below (the trim
  on both sides of each claim is the same function).
* Python's `re` module, applied to a `str` pattern without `re.ASCII`,
  matches `\d` against every Unicode decimal digit (category Nd), not
  only `0`-`9`.  `isPyDigit` models this with the Nd digit ranges of the
  Unicode standard.  `float()` likewise accepts Nd digits.
* The MongoDB collection is modelled as a list of records; `update_one`
  with a `$set` update and `upsert=True` either rewrites the matching
  record in place or appends a fresh document.  A possible `PyMongoError`
  is modelled by an oracle: a list of outcomes, one consumed per database
  operation (`none` = success, `some msg` = the operation raises with
  detail string `msg`).  The unconsumed tail is returned, which makes
  "the handler performs exactly one store operation" observable.
-/

namespace Tracker

/-- Python values reachable from a parsed JSON body (or a path parameter).
`vNull` is Python `None` (a JSON `null` or an absent key), `vOther` stands
for any aggregate (list/dict), which is not a string and not convertible
by `float()`. -/
inductive Val where
  | vNull
  | vBool (b : Bool)
  | vNum (q : ℚ)
  | vStr (s : String)
  | vOther
deriving DecidableEq, Repr

/-- A Python float: a finite value (exact rational, see the module comment)
or one of the special values. -/
inductive PyFloat where
  | fin (q : ℚ)
  | nan
  | inf
  | ninf
deriving DecidableEq, Repr

/-- IEEE-754 ordering as Python's `<=` exposes it: any comparison with
`nan` is false; `-inf` is below and `+inf` above every non-`nan` value. -/
def PyFloat.le : PyFloat → PyFloat → Bool
  | .nan, _ => false
  | _, .nan => false
  | .ninf, _ => true
  | _, .ninf => false
  | _, .inf => true
  | .inf, _ => false
  | .fin a, .fin b => decide (a ≤ b)

/-- ASCII whitespace stripped by `str.strip()` (and ignored by `float()`). -/
def isPySpace (c : Char) : Bool :=
  c = ' ' || c = '\t' || c = '\n' || c = '\x0d' || c = '\x0b' || c = '\x0c'

/-- `str.strip()` on a character list: drop whitespace from both ends. -/
def pyStripList (l : List Char) : List Char :=
  ((l.dropWhile isPySpace).reverse.dropWhile isPySpace).reverse

/-- `str.strip()`. -/
def pyStrip (s : String) : String :=
  String.mk (pyStripList s.data)

/-- First code points of the 10-character Unicode Nd (decimal digit) blocks:
these are the characters `\d` matches in a Python 3 `str` regex and the
digits `float()` accepts.  Each block holds the digits 0-9 in order. -/
def ndStarts : List Nat :=
  [0x30, 0x660, 0x6F0, 0x7C0, 0x966, 0x9E6, 0xA66, 0xAE6, 0xB66, 0xBE6,
   0xC66, 0xCE6, 0xD66, 0xDE6, 0xE50, 0xED0, 0xF20, 0x1040, 0x1090, 0x17E0,
   0x1810, 0x1946, 0x19D0, 0x1A80, 0x1A90, 0x1B50, 0x1BB0, 0x1C40, 0x1C50,
   0xA620, 0xA8D0, 0xA900, 0xA9D0, 0xA9F0, 0xAA50, 0xABF0, 0xFF10,
   0x104A0, 0x10D30, 0x11066, 0x110F0, 0x11136, 0x111D0, 0x112F0, 0x11450,
   0x114D0, 0x11650, 0x116C0, 0x11730, 0x118E0, 0x11950, 0x11C50, 0x11D50,
   0x11DA0, 0x16A60, 0x16AC0, 0x16B50, 0x1D7CE, 0x1D7D8, 0x1D7E2, 0x1D7EC,
   0x1D7F6, 0x1E140, 0x1E2F0, 0x1E4F0, 0x1E950, 0x1FBF0]

/-- The decimal value of a Unicode decimal digit, or `none` when the
character is not a decimal digit. -/
def digitVal? (c : Char) : Option Nat :=
  (ndStarts.find? fun s => decide (s ≤ c.toNat) && decide (c.toNat ≤ s + 9)).map
    fun s => c.toNat - s

/-- Python 3 `\d` on a `str` pattern: any Unicode decimal digit. -/
def isPyDigit (c : Char) : Bool :=
  (digitVal? c).isSome

/-- The nonnegative integer denoted by a digit string, as a rational. -/
def digitsValQ (ds : List Char) : ℚ :=
  ds.foldl (fun a c => 10 * a + (((digitVal? c).getD 0 : ℕ) : ℚ)) 0

/-- The nonnegative integer denoted by a digit string. -/
def digitsValN (ds : List Char) : ℕ :=
  ds.foldl (fun a c => 10 * a + (digitVal? c).getD 0) 0

/-- Parse the optional exponent suffix of a float literal (`e`/`E`, an
optional sign, one or more digits).  An empty remainder means exponent 0;
anything else is a parse failure. -/
def parseExpPart : List Char → Option Int
  | [] => some 0
  | c :: r =>
    if c = 'e' || c = 'E' then
      let sr : Int × List Char :=
        match r with
        | '+' :: t => (1, t)
        | '-' :: t => (-1, t)
        | t => (1, t)
      let ds := sr.2.takeWhile isPyDigit
      let rest := sr.2.dropWhile isPyDigit
      if ds = [] ∨ rest ≠ [] then none
      else some (sr.1 * (digitsValN ds : Int))
    else none

/-- Parse an unsigned float literal: `digits [. digits] [exp]` with at
least one mantissa digit, exactly as `float()` accepts after sign and
underscore handling. -/
def parseNumber (l : List Char) : Option ℚ :=
  let ip := l.takeWhile isPyDigit
  let r1 := l.dropWhile isPyDigit
  match r1 with
  | '.' :: r2 =>
    let fp := r2.takeWhile isPyDigit
    let r3 := r2.dropWhile isPyDigit
    if ip = [] ∧ fp = [] then none
    else (parseExpPart r3).map fun e =>
      (digitsValQ ip + digitsValQ fp / (10 : ℚ) ^ fp.length) * (10 : ℚ) ^ e
  | _ =>
    if ip = [] then none
    else (parseExpPart r1).map fun e => digitsValQ ip * (10 : ℚ) ^ e

/-- Parse a float literal with optional sign, including the keywords
`inf`, `infinity` and `nan` (case-insensitive), as `float()` does. -/
def parseSigned (l : List Char) : Option PyFloat :=
  let sr : Bool × List Char :=
    match l with
    | '+' :: t => (false, t)
    | '-' :: t => (true, t)
    | t => (false, t)
  let low := sr.2.map Char.toLower
  if low = "inf".data ∨ low = "infinity".data then
    some (if sr.1 then .ninf else .inf)
  else if low = "nan".data then some .nan
  else (parseNumber sr.2).map fun q => .fin (if sr.1 then -q else q)

/-- Each underscore in a numeric literal must sit between two digits
(PEP 515, enforced by `float()`). -/
def undOk : List Char → Bool
  | '_' :: _ => false
  | c :: '_' :: rest =>
    match rest with
    | c2 :: _ => isPyDigit c && isPyDigit c2 && undOk rest
    | [] => false
  | _ :: rest => undOk rest
  | [] => true

/-- `float(s)` for a string `s`: strip whitespace, validate underscore
placement, drop the underscores, then parse. -/
def pyFloatOfStr (s : String) : Option PyFloat :=
  let l := pyStripList s.data
  if undOk l then parseSigned (l.filter fun c => c ≠ '_') else none

/-- `float(v)` for any modelled Python value: bools convert to 0/1,
numbers to themselves, strings are parsed; `None` and aggregates raise
(`TypeError`), modelled as `none`. -/
def pyFloatOf : Val → Option PyFloat
  | .vBool b => some (.fin (if b then 1 else 0))
  | .vNum q => some (.fin q)
  | .vStr s => pyFloatOfStr s
  | _ => none

/-- The anchored match of `PHONE_REGEX`, i.e. `^\+?\d{7,15}$`, on an
already-stripped character list.  (After `strip()` the string cannot end
in a newline, so the end-of-string quirk of `$` cannot fire.) -/
def phoneMatch (l : List Char) : Bool :=
  let ds := if l.head? = some '+' then l.tail else l
  decide (7 ≤ ds.length) && decide (ds.length ≤ 15) && ds.all isPyDigit

/-- `validate_phone` from `server.py`: `False` for non-strings, otherwise
the regex match on the stripped string. -/
def validate_phone (v : Val) : Bool :=
  match v with
  | .vStr s => phoneMatch (pyStripList s.data)
  | _ => false

/-- The chained comparison `-90.0 <= lat <= 90.0 and -180.0 <= lon <= 180.0`
from `validate_lat_lon`, under IEEE comparison semantics. -/
def latLonRangeOk (la lo : PyFloat) : Bool :=
  PyFloat.le (.fin (-90)) la && PyFloat.le la (.fin 90) &&
    PyFloat.le (.fin (-180)) lo && PyFloat.le lo (.fin 180)

/-- `validate_lat_lon` from `server.py`: convert both inputs with
`float()` (a failure returns `False`), then check the ranges. -/
def validate_lat_lon (lat lon : Val) : Bool :=
  match pyFloatOf lat, pyFloatOf lon with
  | some la, some lo => if !latLonRangeOk la lo then false else true
  | _, _ => false

/-- The `location` sub-document stored for a phone number. -/
structure Location where
  latitude : PyFloat
  longitude : PyFloat
deriving DecidableEq, Repr

/-- A document of the `users_locations` collection.  `updated_at` is the
`datetime.utcnow()` timestamp, modelled as a natural number. -/
structure Record where
  phone : String
  loc : Location
  updated_at : Nat
deriving DecidableEq, Repr

/-- The MongoDB collection, as the list of its documents. -/
abbrev Store := List Record

/-- `collection.update_one({"phone": p}, {"$set": {...}}, upsert=True)`:
rewrite the location and timestamp of every document matching the filter
(the unique index allows at most one), or append a fresh document when
none matches. -/
def upsertStore (s : Store) (p : String) (l : Location) (t : Nat) : Store :=
  if (s : List Record).any (fun r => r.phone == p) then
    (s : List Record).map fun r =>
      if r.phone == p then { r with loc := l, updated_at := t } else r
  else (s : List Record) ++ [⟨p, l, t⟩]

/-- `collection.find_one({"phone": p})`. -/
def findStore (s : Store) (p : String) : Option Record :=
  (s : List Record).find? fun r => r.phone == p

/-- Outcomes the database will produce, one per operation: `none` means
the operation succeeds, `some msg` that it raises a `PyMongoError` whose
string form is `msg`.  An exhausted oracle keeps succeeding. -/
abbrev Dbo := List (Option String)

/-- Consume one database outcome. -/
def dbStep (dbo : Dbo) : Option String × Dbo :=
  match (dbo : List (Option String)) with
  | [] => (none, [])
  | o :: rest => (o, rest)

/-- `data.get(k)` on the parsed JSON object: Python `None` both for an
absent key and for a JSON `null` value. -/
def getField (data : List (String × Val)) (k : String) : Val :=
  match data.find? fun kv => kv.1 == k with
  | some kv => kv.2
  | none => .vNull

/-- JSON response bodies, as structured values.  `jTime t` stands for the
ISO-8601 serialization `t.isoformat() + "Z"` of the timestamp `t`. -/
inductive J where
  | jStr (s : String)
  | jNum (x : PyFloat)
  | jTime (t : Nat)
  | jObj (fields : List (String × J))

/-- A bare error body, `jsonify({"error": msg})`. -/
def errJ (msg : String) : J :=
  .jObj [("error", .jStr msg)]

/-- The 500 body `jsonify({"error": "Database error", "details": str(e)})`. -/
def dbErrJ (details : String) : J :=
  .jObj [("error", .jStr "Database error"), ("details", .jStr details)]

/-- The `location` sub-object of a response body. -/
def locJ (l : Location) : J :=
  .jObj [("latitude", .jNum l.latitude), ("longitude", .jNum l.longitude)]

/-- The 200 body of a successful POST. -/
def postOkJ (p : String) (l : Location) (t : Nat) : J :=
  .jObj [("message", .jStr "Location stored"), ("phone", .jStr p),
         ("location", locJ l), ("updated_at", .jTime t)]

/-- The 200 body of a successful GET. -/
def getOkJ (r : Record) : J :=
  .jObj [("phone", .jStr r.phone), ("location", locJ r.loc),
         ("updated_at", .jTime r.updated_at)]

/-- Result of the POST handler: HTTP status, response body, the
collection after the request, and the database outcomes not consumed. -/
structure PostOut where
  status : Nat
  body : J
  store : Store
  dbo : Dbo

/-- Result of the GET handler (it never writes the collection). -/
structure GetOut where
  status : Nat
  body : J
  dbo : Dbo

/-- The string carried by a `vStr`; total stand-in for `phone.strip()`,
which the handler only reaches once `validate_phone` guaranteed a string. -/
def valStr : Val → String
  | .vStr s => s
  | _ => ""

/-- The POST `/api/location` handler `update_location` from `server.py`.
`body` is `none` when the request body is not JSON (`request.is_json`
false), otherwise the parsed object; `now` is `datetime.utcnow()`. -/
def update_location (store : Store) (dbo : Dbo) (now : Nat)
    (body : Option (List (String × Val))) : PostOut :=
  match body with
  | none => ⟨400, errJ "Request body must be JSON", store, dbo⟩
  | some data =>
    let phone := getField data "phone"
    let latitude := getField data "latitude"
    let longitude := getField data "longitude"
    if phone = .vNull ∨ latitude = .vNull ∨ longitude = .vNull then
      ⟨400, errJ "Missing required fields: phone, latitude, longitude", store, dbo⟩
    else if !validate_phone phone then
      ⟨400, errJ "Invalid phone format. Use digits with optional leading '+', 7-15 digits.",
        store, dbo⟩
    else if !validate_lat_lon latitude longitude then
      ⟨400, errJ "Invalid latitude/longitude range or format.", store, dbo⟩
    else
      let p := pyStrip (valStr phone)
      let l : Location :=
        ⟨(pyFloatOf latitude).getD (.fin 0), (pyFloatOf longitude).getD (.fin 0)⟩
      match dbStep dbo with
      | (some msg, rest) => ⟨500, dbErrJ msg, store, rest⟩
      | (none, rest) => ⟨200, postOkJ p l now, upsertStore store p l now, rest⟩

/-- The GET `/api/location/<phone>` handler `get_latest_location` from
`server.py`.  The path parameter is always a string; the lookup filter
uses it verbatim, without stripping. -/
def get_latest_location (store : Store) (dbo : Dbo) (phone : String) : GetOut :=
  if !validate_phone (.vStr phone) then ⟨400, errJ "Invalid phone format.", dbo⟩
  else
    match dbStep dbo with
    | (some msg, rest) => ⟨500, dbErrJ msg, rest⟩
    | (none, rest) =>
      match findStore store phone with
      | none => ⟨404, errJ "No location found for this phone number", rest⟩
      | some doc => ⟨200, getOkJ doc, rest⟩

/-! Spec-side definitions, written from the specification's words, for the
refinement claims that compare the code with the spec. -/

/-- An ASCII digit `0`-`9`, as the spec's phrase "ASCII digits" reads. -/
def isAsciiDigit (c : Char) : Bool :=
  decide ('0' ≤ c) && decide (c ≤ '9')

/-- The spec's phrase "consists of an optional leading `+` followed by
7 to 15 digits", for a given digit alphabet: some digit list `ds` of
length 7 to 15 makes up the whole string, possibly after a leading `+`. -/
def specPhoneShape (digit : Char → Bool) (l : List Char) : Prop :=
  ∃ ds : List Char, (l = ds ∨ l = '+' :: ds) ∧
    7 ≤ ds.length ∧ ds.length ≤ 15 ∧ ∀ c ∈ ds, digit c = true

/-- The spec's phrase "`lat` lies in `[-lo, hi]`" for a float value: the
value is finite and sits in the closed rational interval. -/
def finiteWithin (x : PyFloat) (lo hi : ℚ) : Prop :=
  ∃ q, x = .fin q ∧ lo ≤ q ∧ q ≤ hi

/-! Derived store operations used to state the claims. -/

/-- Number of documents of the collection holding the given phone. -/
def cntPhone (s : Store) (p : String) : Nat :=
  s.countP fun r => r.phone == p

/-- A sequence of store-level writes for one fixed phone number, applied
in order (each is the `update_one` upsert of `update_location`). -/
def applyWrites (s : Store) (p : String) (ws : List (Location × Nat)) : Store :=
  ws.foldl (fun st w => upsertStore st p w.1 w.2) s

/-- A sequence of store-level writes for arbitrary phone numbers. -/
def applyAll (s : Store) (ws : List (String × Location × Nat)) : Store :=
  ws.foldl (fun st w => upsertStore st w.1 w.2.1 w.2.2) s

/-! Helper lemmas about the modelled collection. -/

theorem upd_phone (r : Record) (p : String) (l : Location) (t : Nat) :
    (if r.phone == p then { r with loc := l, updated_at := t } else r).phone = r.phone := by
  split <;> rfl

theorem find_map_upd (p : String) (l : Location) (t : Nat) :
    ∀ s : List Record, s.any (fun r => r.phone == p) = true →
      (s.map fun r => if r.phone == p then { r with loc := l, updated_at := t } else r).find?
        (fun r => r.phone == p) = some ⟨p, l, t⟩ := by
  intro s
  induction s with
  | nil => intro h; simp at h
  | cons r rest ih =>
    intro h
    by_cases hr : r.phone = p
    · have hb : (r.phone == p) = true := beq_iff_eq.mpr hr
      simp [List.find?_cons, hb, hr]
    · have hb : (r.phone == p) = false := beq_eq_false_iff_ne.mpr hr
      simp only [List.any_cons, hb, Bool.false_or] at h
      simp only [List.map_cons, List.find?_cons, hb, if_false]
      rw [if_neg (by simp [hb])] at *
      simp only [hb]
      exact ih h

theorem find_append_new (p : String) (l : Location) (t : Nat) :
    ∀ s : List Record, s.any (fun r => r.phone == p) = false →
      (s ++ [(⟨p, l, t⟩ : Record)]).find? (fun r => r.phone == p) = some ⟨p, l, t⟩ := by
  intro s
  induction s with
  | nil => simp [List.find?]
  | cons r rest ih =>
    intro h
    simp only [List.any_cons, Bool.or_eq_false_iff] at h
    simp only [List.cons_append, List.find?_cons, h.1]
    exact ih h.2

/-- After an upsert for `p`, the lookup for `p` finds exactly the document
just written. -/
theorem findStore_upsert_self (s : Store) (p : String) (l : Location) (t : Nat) :
    findStore (upsertStore s p l t) p = some ⟨p, l, t⟩ := by
  unfold upsertStore findStore
  by_cases h : s.any (fun r => r.phone == p) = true
  · rw [if_pos h]; exact find_map_upd p l t s h
  · rw [if_neg h]
    exact find_append_new p l t s (Bool.eq_false_iff.mpr h)

/-- An upsert for a different key does not create a document for `p`. -/
theorem findStore_upsert_other (s : Store) (p q : String) (l : Location) (t : Nat)
    (hqp : q ≠ p) (h : findStore s p = none) :
    findStore (upsertStore s q l t) p = none := by
  unfold findStore at h ⊢
  rw [List.find?_eq_none] at h ⊢
  intro r hr
  unfold upsertStore at hr
  split at hr
  · obtain ⟨r0, hr0, hre⟩ := List.mem_map.mp hr
    have hph : r.phone = r0.phone := by rw [← hre]; exact upd_phone r0 q l t
    rw [hph]
    exact h r0 hr0
  · rcases List.mem_append.mp hr with h1 | h2
    · exact h r h1
    · have hre : r = ⟨q, l, t⟩ := List.mem_singleton.mp h2
      subst hre
      simpa using hqp

/-- One upsert for `p` against a collection the unique index keeps valid
(at most one document for `p`) leaves exactly one document for `p`. -/
theorem cntPhone_upsert (s : Store) (p : String) (l : Location) (t : Nat)
    (h : cntPhone s p ≤ 1) : cntPhone (upsertStore s p l t) p = 1 := by
  unfold cntPhone at h ⊢
  unfold upsertStore
  by_cases hs : s.any (fun r => r.phone == p) = true
  · rw [if_pos hs]
    rw [List.countP_map]
    have heq : (s.countP ((fun r => r.phone == p) ∘
        fun r => if r.phone == p then { r with loc := l, updated_at := t } else r)) =
        s.countP fun r => r.phone == p := by
      apply List.countP_congr
      intro r _
      simp only [Function.comp_apply]
      rw [upd_phone]
    rw [heq]
    have hpos : 0 < s.countP fun r => r.phone == p := by
      rw [List.countP_pos_iff]
      exact List.any_eq_true.mp hs
    omega
  · rw [if_neg hs]
    rw [List.countP_append]
    have h0 : (s.countP fun r => r.phone == p) = 0 := by
      rw [List.countP_eq_zero]
      intro r hr
      have hall := List.any_eq_false.mp (Bool.eq_false_iff.mpr hs)
      exact hall r hr
    rw [h0]
    simp [List.countP_singleton]

/-- The unique-index invariant is preserved by any number of writes for
`p`. -/
theorem cntPhone_applyWrites_le_one (p : String) (ws : List (Location × Nat)) :
    ∀ s : Store, cntPhone s p ≤ 1 → cntPhone (applyWrites s p ws) p ≤ 1 := by
  induction ws with
  | nil => intro s h; exact h
  | cons w rest ih =>
    intro s h
    have h1 := cntPhone_upsert s p w.1 w.2 h
    exact ih (upsertStore s p w.1 w.2) (le_of_eq h1)

theorem applyWrites_append_one (s : Store) (p : String) (ws : List (Location × Nat))
    (w : Location × Nat) :
    applyWrites s p (ws ++ [w]) = upsertStore (applyWrites s p ws) p w.1 w.2 := by
  unfold applyWrites
  rw [List.foldl_append]
  rfl

/-- In a non-decreasingly sorted list, the last element bounds them all. -/
theorem sorted_le_getLast :
    ∀ (l : List Nat) (h : l ≠ []), l.Sorted (· ≤ ·) → ∀ x ∈ l, x ≤ l.getLast h := by
  intro l
  induction l with
  | nil => intro h; exact absurd rfl h
  | cons a rest ih =>
    intro h hs x hx
    cases rest with
    | nil =>
      rw [List.mem_singleton] at hx
      subst hx
      exact le_refl _
    | cons b t =>
      rw [List.sorted_cons] at hs
      rw [List.getLast_cons (by simp)]
      rcases List.mem_cons.mp hx with h1 | h2
      · subst h1
        exact le_trans (hs.1 _ (List.getLast_mem _)) (le_refl _)
      · exact ih (by simp) hs.2 x h2

/-- `validate_lat_lon` rejects a `None` latitude (it is not convertible). -/
theorem validate_lat_lon_null_left (lon : Val) :
    validate_lat_lon .vNull lon = false := by
  unfold validate_lat_lon pyFloatOf
  rfl

/-- `validate_lat_lon` rejects a `None` longitude. -/
theorem validate_lat_lon_null_right (lat : Val) :
    validate_lat_lon lat .vNull = false := by
  unfold validate_lat_lon
  cases pyFloatOf lat <;> rfl

/-- A store-wide sequence of writes, none of them for `p`, never creates
a document for `p`. -/
theorem findStore_applyAll_none (p : String) :
    ∀ (ws : List (String × Location × Nat)) (s : Store), findStore s p = none →
      (∀ w ∈ ws, w.1 ≠ p) → findStore (applyAll s ws) p = none := by
  intro ws
  induction ws with
  | nil => intro s h _; exact h
  | cons w rest ih =>
    intro s h hws
    have hstep := findStore_upsert_other s p w.1 w.2.1 w.2.2
      (hws w (List.mem_cons_self w rest)) h
    exact ih _ hstep fun x hx => hws x (List.mem_cons_of_mem _ hx)

/-! The claims. -/

/-- C9: a POST whose body is not JSON is answered 400 with the body
`error: Request body must be JSON`, before any validation or store
access: the collection is unchanged and no database outcome is consumed. -/
theorem C9_non_json_post (store : Store) (dbo : Dbo) (now : Nat) :
    update_location store dbo now none =
      ⟨400, errJ "Request body must be JSON", store, dbo⟩ := rfl

/-- C6: the three client-error cases of POST (missing or null field;
invalid phone; invalid coordinates) each produce status 400 with their
own body, the three bodies are pairwise distinct, and none of the three
cases touches the collection or consumes a database outcome. -/
theorem C6_client_error_discrimination (store : Store) (dbo : Dbo) (now : Nat)
    (data : List (String × Val)) :
    ((getField data "phone" = .vNull ∨ getField data "latitude" = .vNull ∨
        getField data "longitude" = .vNull) →
      update_location store dbo now (some data) =
        ⟨400, errJ "Missing required fields: phone, latitude, longitude", store, dbo⟩) ∧
    (¬ (getField data "phone" = .vNull ∨ getField data "latitude" = .vNull ∨
        getField data "longitude" = .vNull) →
      validate_phone (getField data "phone") = false →
      update_location store dbo now (some data) =
        ⟨400, errJ "Invalid phone format. Use digits with optional leading '+', 7-15 digits.",
          store, dbo⟩) ∧
    (¬ (getField data "phone" = .vNull ∨ getField data "latitude" = .vNull ∨
        getField data "longitude" = .vNull) →
      validate_phone (getField data "phone") = true →
      validate_lat_lon (getField data "latitude") (getField data "longitude") = false →
      update_location store dbo now (some data) =
        ⟨400, errJ "Invalid latitude/longitude range or format.", store, dbo⟩) ∧
    (errJ "Missing required fields: phone, latitude, longitude" ≠
        errJ "Invalid phone format. Use digits with optional leading '+', 7-15 digits." ∧
      errJ "Missing required fields: phone, latitude, longitude" ≠
        errJ "Invalid latitude/longitude range or format." ∧
      errJ "Invalid phone format. Use digits with optional leading '+', 7-15 digits." ≠
        errJ "Invalid latitude/longitude range or format.") := by
  refine ⟨?_, ?_, ?_, ?_, ?_, ?_⟩
  · intro h
    simp only [update_location]
    rw [if_pos h]
  · intro h hv
    simp only [update_location]
    rw [if_neg h, hv]
    simp
  · intro h hv hll
    simp only [update_location]
    rw [if_neg h, hv, hll]
    simp
  · intro hc
    simp only [errJ, J.jObj.injEq, List.cons.injEq, Prod.mk.injEq, J.jStr.injEq] at hc
    exact absurd hc.1.2 (by decide)
  · intro hc
    simp only [errJ, J.jObj.injEq, List.cons.injEq, Prod.mk.injEq, J.jStr.injEq] at hc
    exact absurd hc.1.2 (by decide)
  · intro hc
    simp only [errJ, J.jObj.injEq, List.cons.injEq, Prod.mk.injEq, J.jStr.injEq] at hc
    exact absurd hc.1.2 (by decide)

/-- C6 witness: the three client-error branches at concrete requests. -/
theorem C6_client_error_discrimination_witness :
    update_location [] [] 0 (some [("phone", .vStr "+15551234567")]) =
      ⟨400, errJ "Missing required fields: phone, latitude, longitude", [], []⟩ ∧
    update_location [] [] 0
        (some [("phone", .vStr "12x"), ("latitude", .vNum 0), ("longitude", .vNum 0)]) =
      ⟨400, errJ "Invalid phone format. Use digits with optional leading '+', 7-15 digits.",
        [], []⟩ ∧
    update_location [] [] 0
        (some [("phone", .vStr "+15551234567"), ("latitude", .vNum 91), ("longitude", .vNum 0)]) =
      ⟨400, errJ "Invalid latitude/longitude range or format.", [], []⟩ :=
  ⟨(C6_client_error_discrimination [] [] 0 _).1 (by decide),
   (C6_client_error_discrimination [] [] 0 _).2.1 (by decide) (by decide),
   (C6_client_error_discrimination [] [] 0 _).2.2.1 (by decide) (by decide) (by decide)⟩

/-- C7: when the database operation raises a `PyMongoError` with message
`msg`, the POST upsert and the GET lookup both answer 500 with the body
`error: Database error, details: msg`; the collection is unchanged and
exactly one database outcome is consumed, so the operation is not
retried. -/
theorem C7_store_failure (store : Store) (rest : Dbo) (msg : String) (now : Nat)
    (data : List (String × Val))
    (hph : validate_phone (getField data "phone") = true)
    (hll : validate_lat_lon (getField data "latitude") (getField data "longitude") = true)
    (p : String) (hp : validate_phone (.vStr p) = true) :
    update_location store (some msg :: rest) now (some data) =
      ⟨500, dbErrJ msg, store, rest⟩ ∧
    get_latest_location store (some msg :: rest) p = ⟨500, dbErrJ msg, rest⟩ := by
  constructor
  · have h1 : getField data "phone" ≠ .vNull := by
      intro h; rw [h] at hph; exact absurd hph (by decide)
    have h2 : getField data "latitude" ≠ .vNull := by
      intro h
      rw [h, validate_lat_lon_null_left] at hll
      exact absurd hll (by decide)
    have h3 : getField data "longitude" ≠ .vNull := by
      intro h
      rw [h, validate_lat_lon_null_right] at hll
      exact absurd hll (by decide)
    simp only [update_location]
    rw [if_neg (by tauto), hph, hll]
    simp [dbStep]
  · simp only [get_latest_location]
    rw [hp]
    simp [dbStep]

/-- C7 witness: a concrete failing write and failing read. -/
theorem C7_store_failure_witness :
    update_location [] [some "boom"] 0
        (some [("phone", .vStr "+15551234567"), ("latitude", .vNum 1),
               ("longitude", .vNum 2)]) =
      ⟨500, dbErrJ "boom", [], []⟩ ∧
    get_latest_location [] [some "boom"] "+15551234567" = ⟨500, dbErrJ "boom", []⟩ :=
  C7_store_failure [] [] "boom" 0 _ (by decide) (by decide) "+15551234567" (by decide)

/-- C8: a valid phone number for which no prior write occurred is not
found by the lookup, and the GET handler answers 404 with the body
`error: No location found for this phone number`. -/
theorem C8_not_found (p : String) (ws : List (String × Location × Nat))
    (hp : validate_phone (.vStr p) = true)
    (hws : ∀ w ∈ ws, w.1 ≠ p) :
    findStore (applyAll [] ws) p = none ∧
    get_latest_location (applyAll [] ws) [] p =
      ⟨404, errJ "No location found for this phone number", []⟩ := by
  have hnone : findStore (applyAll [] ws) p = none :=
    findStore_applyAll_none p ws [] rfl hws
  refine ⟨hnone, ?_⟩
  simp only [get_latest_location]
  rw [hp]
  simp [dbStep, hnone]

/-- C8 witness: a store holding one other phone number has nothing for
`+19999999999`. -/
theorem C8_not_found_witness :
    findStore (applyAll [] [("1234567", ⟨.fin 1, .fin 1⟩, 0)]) "+19999999999" = none ∧
    get_latest_location (applyAll [] [("1234567", ⟨.fin 1, .fin 1⟩, 0)]) [] "+19999999999" =
      ⟨404, errJ "No location found for this phone number", []⟩ :=
  C8_not_found "+19999999999" [("1234567", ⟨.fin 1, .fin 1⟩, 0)] (by decide) (by decide)

/-- C1 counterexample: the round-trip fails for a phone string the
validator accepts but which carries leading whitespace.  The POST for
`" 1234567"` succeeds (it stores the trimmed key `"1234567"`), yet the
GET for the same string `" 1234567"` filters on the untrimmed path
parameter and answers 404, not 200 with the written coordinates. -/
theorem C1_roundtrip_counterexample :
    validate_phone (.vStr " 1234567") = true ∧
    validate_lat_lon (.vNum 1) (.vNum 2) = true ∧
    (update_location [] [] 0
        (some [("phone", .vStr " 1234567"), ("latitude", .vNum 1),
               ("longitude", .vNum 2)])).status = 200 ∧
    (get_latest_location
        (update_location [] [] 0
          (some [("phone", .vStr " 1234567"), ("latitude", .vNum 1),
                 ("longitude", .vNum 2)])).store
        [] " 1234567").status = 404 :=
  ⟨by decide, by decide, rfl, rfl⟩

/-- C1 amended: for every phone string `p` accepted by `validate_phone`
that carries no surrounding whitespace (`p.strip() = p`), and every
coordinate pair accepted by `validate_lat_lon`, a successful POST upsert
followed by a GET of the same string `p` answers 200 with a record whose
location is exactly the converted pair; the lookup is exact-match on the
trimmed phone string used at write time. -/
theorem C1_roundtrip_trimmed (store : Store) (now : Nat) (p : String) (lat lon : Val)
    (hp : validate_phone (.vStr p) = true) (hll : validate_lat_lon lat lon = true)
    (htrim : pyStrip p = p) :
    (update_location store [] now
        (some [("phone", .vStr p), ("latitude", lat), ("longitude", lon)])).status = 200 ∧
    get_latest_location
        (update_location store [] now
          (some [("phone", .vStr p), ("latitude", lat), ("longitude", lon)])).store [] p =
      ⟨200,
        getOkJ ⟨p, ⟨(pyFloatOf lat).getD (.fin 0), (pyFloatOf lon).getD (.fin 0)⟩, now⟩,
        []⟩ := by
  have hgp : getField [("phone", Val.vStr p), ("latitude", lat), ("longitude", lon)]
      "phone" = .vStr p := rfl
  have hgla : getField [("phone", Val.vStr p), ("latitude", lat), ("longitude", lon)]
      "latitude" = lat := rfl
  have hglo : getField [("phone", Val.vStr p), ("latitude", lat), ("longitude", lon)]
      "longitude" = lon := rfl
  have h2 : lat ≠ .vNull := by
    intro h
    rw [h, validate_lat_lon_null_left] at hll
    exact absurd hll (by decide)
  have h3 : lon ≠ .vNull := by
    intro h
    rw [h, validate_lat_lon_null_right] at hll
    exact absurd hll (by decide)
  have hpost : update_location store [] now
      (some [("phone", .vStr p), ("latitude", lat), ("longitude", lon)]) =
      ⟨200, postOkJ p ⟨(pyFloatOf lat).getD (.fin 0), (pyFloatOf lon).getD (.fin 0)⟩ now,
        upsertStore store p
          ⟨(pyFloatOf lat).getD (.fin 0), (pyFloatOf lon).getD (.fin 0)⟩ now, []⟩ := by
    simp only [update_location, hgp, hgla, hglo]
    rw [if_neg (by simp [h2, h3]), hp, hll]
    simp [dbStep, valStr, htrim]
  refine ⟨by rw [hpost], ?_⟩
  rw [hpost]
  simp only [get_latest_location]
  rw [hp]
  simp [dbStep, findStore_upsert_self]

/-- C1 witness: a concrete trimmed round-trip. -/
theorem C1_roundtrip_trimmed_witness :
    validate_phone (.vStr "1234567") = true ∧
    validate_lat_lon (.vNum 1) (.vNum 2) = true ∧
    pyStrip "1234567" = "1234567" ∧
    (update_location [] [] 5
        (some [("phone", .vStr "1234567"), ("latitude", .vNum 1),
               ("longitude", .vNum 2)])).status = 200 ∧
    get_latest_location
        (update_location [] [] 5
          (some [("phone", .vStr "1234567"), ("latitude", .vNum 1),
                 ("longitude", .vNum 2)])).store [] "1234567" =
      ⟨200, getOkJ ⟨"1234567", ⟨.fin 1, .fin 2⟩, 5⟩, []⟩ := by
  have h := C1_roundtrip_trimmed [] 5 "1234567" (.vNum 1) (.vNum 2)
    (by decide) (by decide) (by decide)
  exact ⟨by decide, by decide, by decide, h.1, h.2⟩

/-- C2: starting from any collection the unique index keeps valid for
`p`, a non-empty sequence of upserts for `p` with non-decreasing
timestamps leaves exactly one document for `p`; it carries the location
and timestamp of the last write, and that timestamp bounds every
earlier write's timestamp. -/
theorem C2_last_write_wins (store : Store) (p : String) (ws : List (Location × Nat))
    (hinv : cntPhone store p ≤ 1) (hne : ws ≠ [])
    (hmono : (ws.map Prod.snd).Sorted (· ≤ ·)) :
    cntPhone (applyWrites store p ws) p = 1 ∧
    findStore (applyWrites store p ws) p =
      some ⟨p, (ws.getLast hne).1, (ws.getLast hne).2⟩ ∧
    ∀ w ∈ ws, w.2 ≤ (ws.getLast hne).2 := by
  refine ⟨?_, ?_, ?_⟩
  · obtain ⟨ws0, w, hcat⟩ : ∃ L b, ws = L ++ [b] := by
      rcases List.eq_nil_or_concat ws with h | ⟨L, b, h⟩
      · exact absurd h hne
      · exact ⟨L, b, by simpa using h⟩
    subst hcat
    rw [applyWrites_append_one]
    exact cntPhone_upsert _ p w.1 w.2 (cntPhone_applyWrites_le_one p ws0 store hinv)
  · obtain ⟨ws0, w, hcat⟩ : ∃ L b, ws = L ++ [b] := by
      rcases List.eq_nil_or_concat ws with h | ⟨L, b, h⟩
      · exact absurd h hne
      · exact ⟨L, b, by simpa using h⟩
    subst hcat
    rw [applyWrites_append_one, findStore_upsert_self]
    simp [List.getLast_append]
  · intro w hw
    have hmem : w.2 ∈ ws.map Prod.snd := List.mem_map_of_mem Prod.snd hw
    have hmapne : ws.map Prod.snd ≠ [] := by
      intro h
      exact hne (List.map_eq_nil_iff.mp h)
    have hle := sorted_le_getLast (ws.map Prod.snd) hmapne hmono w.2 hmem
    rwa [List.getLast_map Prod.snd ws hmapne] at hle

/-- C2 witness: two writes for one phone with different coordinates. -/
theorem C2_last_write_wins_witness :
    cntPhone (applyWrites [] "+15551234567" [(⟨.fin 1, .fin 2⟩, 3), (⟨.fin 4, .fin 5⟩, 7)])
      "+15551234567" = 1 ∧
    findStore (applyWrites [] "+15551234567" [(⟨.fin 1, .fin 2⟩, 3), (⟨.fin 4, .fin 5⟩, 7)])
      "+15551234567" = some ⟨"+15551234567", ⟨.fin 4, .fin 5⟩, 7⟩ ∧
    ∀ w ∈ [((⟨.fin 1, .fin 2⟩ : Location), 3), (⟨.fin 4, .fin 5⟩, 7)], w.2 ≤ 7 :=
  C2_last_write_wins [] "+15551234567" [(⟨.fin 1, .fin 2⟩, 3), (⟨.fin 4, .fin 5⟩, 7)]
    (by decide) (by decide) (by decide)

/-- The anchored regex on an already-stripped string matches exactly the
shape "optional leading plus, then 7 to 15 decimal digits". -/
theorem phoneMatch_iff_shape (l : List Char) :
    phoneMatch l = true ↔ specPhoneShape isPyDigit l := by
  unfold phoneMatch specPhoneShape
  constructor
  · intro h
    simp only [Bool.and_eq_true, decide_eq_true_eq, List.all_eq_true] at h
    by_cases hplus : l.head? = some '+'
    · rw [if_pos hplus] at h
      refine ⟨l.tail, Or.inr ?_, h.1.1, h.1.2, h.2⟩
      cases l with
      | nil => simp at hplus
      | cons c r =>
        simp only [List.head?_cons, Option.some.injEq] at hplus
        rw [hplus]
        rfl
    · rw [if_neg hplus] at h
      exact ⟨l, Or.inl rfl, h.1.1, h.1.2, h.2⟩
  · rintro ⟨ds, hds, h7, h15, hall⟩
    simp only [Bool.and_eq_true, decide_eq_true_eq, List.all_eq_true]
    rcases hds with h | h
    · subst h
      have hplus : l.head? ≠ some '+' := by
        intro hh
        cases l with
        | nil => simp at h7
        | cons c r =>
          simp only [List.head?_cons, Option.some.injEq] at hh
          subst hh
          exact absurd (hall '+' (List.mem_cons_self _ _)) (by decide)
      rw [if_neg hplus]
      exact ⟨⟨h7, h15⟩, hall⟩
    · subst h
      simp only [List.head?_cons, if_pos rfl, List.tail_cons]
      exact ⟨⟨h7, h15⟩, hall⟩

/-- C3 counterexample: `validate_phone` accepts the string `"123456٧"`,
whose final character is the Arabic-Indic digit seven — a Unicode decimal
digit but not an ASCII digit — because the Python 3 pattern `\d` without
`re.ASCII` is Unicode-aware; the claim's ASCII-digit reading predicts
rejection, so the stated equivalence fails at this input. -/
theorem C3_phone_counterexample :
    validate_phone (.vStr "123456٧") = true ∧
    ¬ (∃ s, Val.vStr "123456٧" = Val.vStr s ∧
        specPhoneShape isAsciiDigit (pyStripList s.data)) := by
  refine ⟨by decide, ?_⟩
  rintro ⟨s, hs, ds, hds, h7, h15, hall⟩
  injection hs with hs2
  subst hs2
  rw [show pyStripList "123456٧".data = ['1', '2', '3', '4', '5', '6', '٧'] from by decide]
    at hds
  rcases hds with h | h
  · subst h
    exact absurd (hall '٧' (by decide)) (by decide)
  · injection h with h1 _
    exact absurd h1 (by decide)

/-- C3 amended: `validate_phone` returns true iff its input is a string
which, after trimming leading and trailing whitespace, consists of an
optional leading plus followed by 7 to 15 Unicode decimal digits (the
characters Python's `\d` matches); for every other input it returns
false. -/
theorem C3_phone_validation (v : Val) :
    validate_phone v = true ↔
      ∃ s, v = .vStr s ∧ specPhoneShape isPyDigit (pyStripList s.data) := by
  cases v with
  | vStr s =>
    show phoneMatch (pyStripList s.data) = true ↔ _
    rw [phoneMatch_iff_shape]
    constructor
    · intro h
      exact ⟨s, rfl, h⟩
    · rintro ⟨s2, hs, hshape⟩
      injection hs with h2
      subst h2
      exact hshape
  | vNull => simp [validate_phone]
  | vBool b => simp [validate_phone]
  | vNum q => simp [validate_phone]
  | vOther => simp [validate_phone]

/-- The chained range comparison holds iff both values are finite and in
the closed intervals `[-90, 90]` and `[-180, 180]` respectively. -/
theorem latLonRangeOk_iff (x y : PyFloat) :
    latLonRangeOk x y = true ↔ finiteWithin x (-90) 90 ∧ finiteWithin y (-180) 180 := by
  unfold latLonRangeOk finiteWithin
  cases x <;> cases y <;> simp [PyFloat.le, and_assoc]

/-- C4: `validate_lat_lon` returns true iff both inputs convert under
`float()` and the converted values lie in `[-90, 90]` and `[-180, 180]`;
the exact boundaries are accepted, and `90.0001` and `"abc"` are
rejected. -/
theorem C4_coordinate_validation :
    (∀ lat lon : Val, validate_lat_lon lat lon = true ↔
      ∃ x y, pyFloatOf lat = some x ∧ pyFloatOf lon = some y ∧
        finiteWithin x (-90) 90 ∧ finiteWithin y (-180) 180) ∧
    validate_lat_lon (.vNum 90) (.vNum 180) = true ∧
    validate_lat_lon (.vNum (-90)) (.vNum (-180)) = true ∧
    validate_lat_lon (.vNum (900001 / 10000)) (.vNum 0) = false ∧
    validate_lat_lon (.vStr "abc") (.vNum 0) = false := by
  refine ⟨?_, by decide, by decide, by with_unfolding_all decide, by decide⟩
  intro lat lon
  unfold validate_lat_lon
  cases hx : pyFloatOf lat with
  | none => simp
  | some x =>
    cases hy : pyFloatOf lon with
    | none => simp
    | some y =>
      show (if (!latLonRangeOk x y) = true then false else true) = true ↔ _
      rw [show (if (!latLonRangeOk x y) = true then false else true) = latLonRangeOk x y from by
        cases latLonRangeOk x y <;> rfl]
      rw [latLonRangeOk_iff]
      constructor
      · rintro ⟨hfx, hfy⟩
        exact ⟨x, y, rfl, rfl, hfx, hfy⟩
      · rintro ⟨x2, y2, hx2, hy2, hfx, hfy⟩
        rw [Option.some_inj] at hx2 hy2
        subst hx2
        subst hy2
        exact ⟨hfx, hfy⟩

/-- C10: `validate_lat_lon` accepts any pair of values `float()` can
convert whose converted values pass the range check — numeric strings
and booleans included — and rejects every input converting to `nan` or
to either infinity, because the chained range comparison fails there. -/
theorem C10_float_convertibility :
    (∀ v w x y, pyFloatOf v = some x → pyFloatOf w = some y →
      latLonRangeOk x y = true → validate_lat_lon v w = true) ∧
    validate_lat_lon (.vStr "45.0") (.vNum 0) = true ∧
    validate_lat_lon (.vBool true) (.vBool false) = true ∧
    (∀ v w x, pyFloatOf v = some x → (x = .nan ∨ x = .inf ∨ x = .ninf) →
      validate_lat_lon v w = false) ∧
    (∀ v w y, pyFloatOf w = some y → (y = .nan ∨ y = .inf ∨ y = .ninf) →
      validate_lat_lon v w = false) ∧
    validate_lat_lon (.vStr "nan") (.vNum 0) = false ∧
    validate_lat_lon (.vNum 0) (.vStr "-inf") = false := by
  refine ⟨?_, by with_unfolding_all decide, by decide, ?_, ?_, by decide, by decide⟩
  · intro v w x y hx hy hr
    unfold validate_lat_lon
    rw [hx, hy]
    show (if (!latLonRangeOk x y) = true then false else true) = true
    rw [hr]
    rfl
  · intro v w x hx hsp
    unfold validate_lat_lon
    rw [hx]
    cases hy : pyFloatOf w with
    | none => rfl
    | some y =>
      have hfalse : latLonRangeOk x y = false := by
        rcases hsp with h | h | h <;> subst h <;> cases y <;>
          simp [latLonRangeOk, PyFloat.le]
      show (if (!latLonRangeOk x y) = true then false else true) = false
      rw [hfalse]
      rfl
  · intro v w y hy hsp
    unfold validate_lat_lon
    rw [hy]
    cases hxv : pyFloatOf v with
    | none => rfl
    | some x =>
      have hfalse : latLonRangeOk x y = false := by
        rcases hsp with h | h | h <;> subst h <;> cases x <;>
          simp [latLonRangeOk, PyFloat.le]
      show (if (!latLonRangeOk x y) = true then false else true) = false
      rw [hfalse]
      rfl

/-- C10 witness: an underscored numeric string converts and is accepted;
an infinity spelled with surrounding whitespace converts and is
rejected. -/
theorem C10_float_convertibility_witness :
    pyFloatOf (.vStr "7_5.5") = some (.fin (151 / 2)) ∧
    validate_lat_lon (.vStr "7_5.5") (.vNum 3) = true ∧
    pyFloatOf (.vStr " Infinity ") = some .inf ∧
    validate_lat_lon (.vStr " Infinity ") (.vNum 0) = false := by
  have h1 := C10_float_convertibility.1 (.vStr "7_5.5") (.vNum 3) (.fin (151 / 2)) (.fin 3)
    (by with_unfolding_all decide) (by decide) (by with_unfolding_all decide)
  have h4 := C10_float_convertibility.2.2.2.1 (.vStr " Infinity ") (.vNum 0) .inf
    (by decide) (Or.inr (Or.inl rfl))
  exact ⟨by with_unfolding_all decide, h1, by decide, h4⟩

end Tracker
